import Mathlib

/-!
# Verification of the approach-visualizer core

Shallow embedding of the approach animation and lighting-configuration
engine of the `approach-visualizer` repository:

* unit conversions and the approach-minima catalog (`types/approach.ts`),
* the approach configuration store (`stores/approach.ts`),
* the animation state machine (`stores/animation.ts`),
* the PAPI glidepath evaluator (`PAPISystem.update`),
* the fog model (`SceneManager.updateFogDistance`),
* the ALSF-I lighting layout generator (`ALSFISystem`).

Pure numeric code that only multiplies, divides and compares exact decimal
constants is embedded over `ℚ` (executable); code paths going through
`Math.tan` / `Math.atan` are embedded over `ℝ` with `Real.tan` /
`Real.arctan`.
-/

/-! ## Unit conversions and catalog constants (`types/approach.ts`) -/

/-- `rvrToStatuteMiles(rvr) = rvr / 5280`. -/
def rvrToStatuteMiles (rvr : ℚ) : ℚ := rvr / 5280

/-- `statuteMilesToMeters(sm) = sm * 1609.344`. -/
def statuteMilesToMeters (sm : ℚ) : ℚ := sm * 1609.344

/-- `feetToMeters(feet) = feet * 0.3048`. -/
def feetToMeters (feet : ℚ) : ℚ := feet * 0.3048

/-- Visibility unit tag: `'RVR' | 'SM'`. -/
inductive VisUnit where
  | RVR
  | SM
deriving DecidableEq, Repr

/-- `ApproachMinimum` record from `types/approach.ts`. -/
structure ApproachMinimum where
  id : String
  label : String
  ceiling : ℚ
  visibility : ℚ
  visibilityUnit : VisUnit
deriving DecidableEq, Repr

/-- The static `APPROACH_MINIMA` catalog. -/
def APPROACH_MINIMA : List ApproachMinimum :=
  [ { id := "cat-i", label := "ILS CAT I", ceiling := 200, visibility := 2400,
      visibilityUnit := .RVR },
    { id := "cat-ii", label := "ILS CAT II", ceiling := 100, visibility := 1200,
      visibilityUnit := .RVR },
    { id := "cat-iiia", label := "ILS CAT IIIa", ceiling := 50, visibility := 600,
      visibilityUnit := .RVR },
    { id := "cat-iiib", label := "ILS CAT IIIb", ceiling := 50, visibility := 300,
      visibilityUnit := .RVR },
    { id := "non-precision", label := "Non-Precision", ceiling := 400, visibility := 1/2,
      visibilityUnit := .SM },
    { id := "circling", label := "Circling", ceiling := 600, visibility := 2,
      visibilityUnit := .SM } ]

/-- Lighting-system type tag (closed union of 8 string literals in the source). -/
inductive LightingType where
  | ALSF_II
  | ALSF_I
  | MALSR
  | SSALR
  | MALS
  | MALSF
  | ODALS
  | None
deriving DecidableEq, Repr

/-! ## Approach configuration store (`stores/approach.ts`) -/

/-- The mutable refs of the approach store. -/
structure ApproachState where
  selectedMinimumId : String
  customCeiling : Option ℚ
  customVisibility : Option ℚ
  customVisibilityUnit : Option VisUnit
  lightingType : LightingType
  approachSpeed : ℚ
  showREIL : Bool
  showRCLS : Bool
  showEdgeLights : Bool
  showPAPI : Bool
  showThresholdMarkings : Bool
  showTouchdownZone : Bool
  showSideStripes : Bool
  showAimPoint : Bool
deriving DecidableEq, Repr

/-- `selectedMinimum = APPROACH_MINIMA.find((m) => m.id === selectedMinimumId.value)`. -/
def selectedMinimum (s : ApproachState) : Option ApproachMinimum :=
  APPROACH_MINIMA.find? (fun m => m.id == s.selectedMinimumId)

/-- `effectiveCeiling = customCeiling ?? selectedMinimum?.ceiling ?? 200`. -/
def effectiveCeiling (s : ApproachState) : ℚ :=
  s.customCeiling.getD (((selectedMinimum s).map (·.ceiling)).getD 200)

/-- `effectiveVisibility = customVisibility ?? selectedMinimum?.visibility ?? 2400`. -/
def effectiveVisibility (s : ApproachState) : ℚ :=
  s.customVisibility.getD (((selectedMinimum s).map (·.visibility)).getD 2400)

/-- `visibilityUnit = customVisibilityUnit ?? selectedMinimum?.visibilityUnit ?? 'RVR'`. -/
def visibilityUnit (s : ApproachState) : VisUnit :=
  s.customVisibilityUnit.getD (((selectedMinimum s).map (·.visibilityUnit)).getD .RVR)

/-- `selectMinimum(minimumId)`: select and clear the three custom overrides. -/
def selectMinimum (s : ApproachState) (minimumId : String) : ApproachState :=
  { s with
    selectedMinimumId := minimumId
    customCeiling := none
    customVisibility := none
    customVisibilityUnit := none }

/-- `applyLightingPreset(type)`: overwrite the eight toggles per the switch. -/
def applyLightingPreset (type : LightingType) (s : ApproachState) : ApproachState :=
  match type with
  | .ALSF_II | .ALSF_I =>
    { s with
      showREIL := false, showRCLS := true, showEdgeLights := true, showPAPI := true,
      showThresholdMarkings := true, showTouchdownZone := true, showSideStripes := true,
      showAimPoint := true }
  | .MALSR =>
    { s with
      showREIL := true, showRCLS := false, showEdgeLights := true, showPAPI := true,
      showThresholdMarkings := true, showTouchdownZone := true, showSideStripes := true,
      showAimPoint := true }
  | .SSALR | .MALS | .MALSF =>
    { s with
      showREIL := true, showRCLS := false, showEdgeLights := true, showPAPI := true,
      showThresholdMarkings := true, showTouchdownZone := false, showSideStripes := false,
      showAimPoint := false }
  | .ODALS =>
    { s with
      showREIL := false, showRCLS := false, showEdgeLights := true, showPAPI := false,
      showThresholdMarkings := true, showTouchdownZone := false, showSideStripes := false,
      showAimPoint := false }
  | .None =>
    { s with
      showREIL := false, showRCLS := false, showEdgeLights := false, showPAPI := false,
      showThresholdMarkings := true, showTouchdownZone := false, showSideStripes := false,
      showAimPoint := false }

/-- `setLightingType(type)`: set the tag, then apply the preset. -/
def setLightingType (s : ApproachState) (type : LightingType) : ApproachState :=
  applyLightingPreset type { s with lightingType := type }

/-- `setApproachSpeed(speed)` clamps into `[50, 200]`. -/
def setApproachSpeed (s : ApproachState) (speed : ℚ) : ApproachState :=
  { s with approachSpeed := max 50 (min 200 speed) }

/-- The eight feature toggles as a list, in declaration order. -/
def togglesOf (s : ApproachState) : List Bool :=
  [s.showREIL, s.showRCLS, s.showEdgeLights, s.showPAPI,
   s.showThresholdMarkings, s.showTouchdownZone, s.showSideStripes, s.showAimPoint]

/-- The store's initial ref values (before `initializePresets()`). -/
def initialApproachRefs : ApproachState :=
  { selectedMinimumId := "cat-i", customCeiling := none, customVisibility := none,
    customVisibilityUnit := none, lightingType := .ALSF_II, approachSpeed := 120,
    showREIL := true, showRCLS := true, showEdgeLights := true, showPAPI := true,
    showThresholdMarkings := true, showTouchdownZone := true, showSideStripes := true,
    showAimPoint := true }

/-- Store state after the constructor-time `initializePresets()` call. -/
def defaultApproach : ApproachState :=
  applyLightingPreset initialApproachRefs.lightingType initialApproachRefs

/-! ## Fog model (`SceneManager.updateFogDistance`) -/

/-- The three scene fog fields written by `updateFogDistance`. -/
structure FogSettings where
  fogStart : ℚ
  fogEnd : ℚ
  fogDensity : ℚ
deriving DecidableEq, Repr

/-- `updateFogDistance()` as a function of the store's visibility unit and value. -/
def updateFogDistance (unit : VisUnit) (vis : ℚ) : FogSettings :=
  let visibilityMeters : ℚ :=
    if unit = .RVR then vis * 0.3048 else statuteMilesToMeters vis
  if unit = .RVR then
    { fogStart := visibilityMeters * 0.1, fogEnd := visibilityMeters * 0.8,
      fogDensity := 0.01 }
  else
    { fogStart := visibilityMeters * 0.3, fogEnd := visibilityMeters * 1.0,
      fogDensity := 0.005 }

/-! ## ALSF-I lighting layout (`ALSFISystem.ts` + `ApproachLightingSystem.ts`)

Mesh creation is abstracted to the fixture data the generator computes:
position in meters (`x` lateral, `y` height, `z` longitudinal, negative
toward the approach), color class, and whether the fixture was also
registered as a sequenced flasher. -/

/-- `RUNWAY_WIDTH_FT = 150`. -/
def RUNWAY_WIDTH_FT : ℚ := 150

/-- Color class of a generated light fixture. -/
inductive LightColor where
  | white
  | red
  | green
  | strobe
deriving DecidableEq, Repr

/-- One generated light fixture. -/
structure Fixture where
  x : ℚ
  y : ℚ
  z : ℚ
  color : LightColor
  isFlasher : Bool
deriving DecidableEq, Repr

/-- `barrSpacing = feetToMeters(40.5 / 12)` (40.5-inch barrette spacing). -/
def alsfiBarrSpacing : ℚ := feetToMeters (40.5 / 12)

/-- One standard 5-light centerline barrette, lights at `i = -2..2`. -/
def alsfiStandardBarrette (ft : ℚ) : List Fixture :=
  (List.range 5).map fun j =>
    { x := ((j : ℚ) - 2) * alsfiBarrSpacing, y := 2, z := -feetToMeters ft,
      color := .white, isFlasher := false }

/-- `create1000FootCrossbar`: 5-light center barrette plus two 8-light side
barrettes at 5-ft spacing, innermost at 22.5 ft, at the 1000-ft station. -/
def alsfiCrossbar1000 : List Fixture :=
  alsfiStandardBarrette 1000 ++
    ([-1, 1] : List ℚ).flatMap fun side =>
      (List.range 8).map fun i =>
        { x := side * (feetToMeters 22.5 + (i : ℚ) * feetToMeters 5), y := 2,
          z := -feetToMeters 1000, color := .white, isFlasher := false }

/-- `createCenterlineBarrettes`: stations 100..3000 ft step 100; station 1000
is special-cased into the wide crossbar. -/
def alsfiCenterlineBarrettes : List Fixture :=
  (List.range 30).flatMap fun k =>
    let ft : ℚ := 100 * ((k : ℚ) + 1)
    if ft = 1000 then alsfiCrossbar1000 else alsfiStandardBarrette ft

/-- `createPreThresholdBar`: two red 5-light barrettes at the 100-ft station,
3.5-ft centers, innermost 75 ft from centerline. -/
def alsfiPreThresholdBar : List Fixture :=
  ([-1, 1] : List ℚ).flatMap fun side =>
    (List.range 5).map fun i =>
      { x := side * (feetToMeters 75 + (i : ℚ) * feetToMeters 3.5), y := 2,
        z := -feetToMeters 100, color := .red, isFlasher := false }

/-- `createTerminatingBar`: two red 3-light barrettes at the 200-ft station,
5-ft centers, innermost 15 ft from centerline. -/
def alsfiTerminatingBar : List Fixture :=
  ([-1, 1] : List ℚ).flatMap fun side =>
    (List.range 3).map fun i =>
      { x := side * (feetToMeters 15 + (i : ℚ) * feetToMeters 5), y := 2,
        z := -feetToMeters 200, color := .red, isFlasher := false }

/-- `createThresholdBar(extensionFt = 45)` from the base class: green lights
at 5-ft centers spanning the runway width plus 45 ft on each side, at `z = 0`. -/
def createThresholdBar : List Fixture :=
  let thresholdBarWidth : ℚ := feetToMeters RUNWAY_WIDTH_FT + feetToMeters (45 * 2)
  let thresholdLightSpacing : ℚ := feetToMeters 5
  let numThresholdLights : ℕ := (Int.floor (thresholdBarWidth / thresholdLightSpacing)).toNat
  (List.range (numThresholdLights + 1)).map fun i =>
    { x := -thresholdBarWidth / 2 + (i : ℚ) * thresholdLightSpacing, y := 1, z := 0,
      color := .green, isFlasher := false }

/-- `createSequencedFlashers`: one flasher at each station 1000..3000 ft
step 100, on the centerline at height 3. -/
def alsfiSequencedFlashers : List Fixture :=
  (List.range 21).map fun k =>
    { x := 0, y := 3, z := -feetToMeters (1000 + 100 * (k : ℚ)),
      color := .strobe, isFlasher := true }

/-- `ALSFISystem.create()`: the full fixture list, in creation order. -/
def alsfiLights : List Fixture :=
  alsfiCenterlineBarrettes ++ alsfiPreThresholdBar ++ alsfiTerminatingBar ++
    createThresholdBar ++ alsfiSequencedFlashers

/-! ## Animation state machine (`stores/animation.ts`)

Distances in nautical miles and altitudes in feet are real numbers; the
3° glideslope goes through `Real.tan`, so these definitions are
noncomputable. -/

/-- `GLIDESLOPE_ANGLE = 3` (degrees). -/
def GLIDESLOPE_ANGLE : ℝ := 3

/-- `FEET_PER_NM = 6076.12`. -/
def FEET_PER_NM : ℝ := 6076.12

/-- `TOUCHDOWN_ZONE_DISTANCE_FT = 1000` (feet past threshold). -/
def TOUCHDOWN_ZONE_DISTANCE_FT : ℝ := 1000

/-- `knotsToMetersPerSecond(knots) = knots * 0.514444`. -/
def knotsToMetersPerSecond (knots : ℝ) : ℝ := knots * 0.514444

/-- The common subexpression `Math.tan((GLIDESLOPE_ANGLE * Math.PI) / 180)`. -/
noncomputable def glideslopeTan : ℝ := Real.tan (GLIDESLOPE_ANGLE * Real.pi / 180)

/-- `calculateGlidepathAltitude(distanceNm) = tan(3°·π/180) * distanceNm * FEET_PER_NM`. -/
noncomputable def calculateGlidepathAltitude (distanceNm : ℝ) : ℝ :=
  glideslopeTan * distanceNm * FEET_PER_NM

/-- The configuration the animation store reads from the approach store,
plus the `testMode` url flag read inside `updatePosition`. -/
structure AnimConfig where
  approachSpeed : ℝ
  effectiveCeiling : ℝ
  selectedMinimumId : String
  testMode : Bool

/-- `'non-precision' || 'circling'` check in `currentAltitude`. -/
def isNonPrecision (cfg : AnimConfig) : Prop :=
  cfg.selectedMinimumId = "non-precision" ∨ cfg.selectedMinimumId = "circling"

instance (cfg : AnimConfig) : Decidable (isNonPrecision cfg) := by
  unfold isNonPrecision
  infer_instance

/-- The `startingDistanceNm` computed ref, as a function of the effective
ceiling (ft) and approach speed (kt). -/
noncomputable def startingDistanceNm (ceiling speedKnots : ℝ) : ℝ :=
  let distanceToTDZAtCeiling := ceiling / (glideslopeTan * FEET_PER_NM)
  let distanceFromThresholdAtCeiling :=
    distanceToTDZAtCeiling + TOUCHDOWN_ZONE_DISTANCE_FT / FEET_PER_NM
  let speedNmPerSecond := speedKnots / 3600
  let distanceIn3Seconds := speedNmPerSecond * 3
  let calculatedStart := distanceFromThresholdAtCeiling + distanceIn3Seconds
  let minAltitudeAboveCeiling : ℝ := 50
  let minDistanceToTDZ := (ceiling + minAltitudeAboveCeiling) / (glideslopeTan * FEET_PER_NM)
  let minDistance := minDistanceToTDZ + TOUCHDOWN_ZONE_DISTANCE_FT / FEET_PER_NM
  max calculatedStart minDistance

/-- The `currentAltitude` computed ref, as a function of `currentDistanceNm`. -/
noncomputable def currentAltitude (cfg : AnimConfig) (currentDistanceNm : ℝ) : ℝ :=
  let distanceToTDZ := max 0 (currentDistanceNm - TOUCHDOWN_ZONE_DISTANCE_FT / FEET_PER_NM)
  let calculatedAltitude := calculateGlidepathAltitude distanceToTDZ
  if isNonPrecision cfg ∧ calculatedAltitude < cfg.effectiveCeiling then cfg.effectiveCeiling
  else calculatedAltitude

/-- The mutable refs of the animation store. -/
structure AnimState where
  isPlaying : Bool
  isPaused : Bool
  currentDistanceNm : ℝ
  hasBrokenOut : Bool
  animationStartTime : Option ℝ
  pausedTime : Option ℝ

/-- `stop()`: clears the playing/paused flags and timestamps. -/
def AnimState.stopped (st : AnimState) : AnimState :=
  { st with
    isPlaying := false
    isPaused := false
    animationStartTime := none
    pausedTime := none }

/-- `reset()`: `stop()`, then distance to `startingDistanceNm` and clear the
breakout latch. -/
noncomputable def resetAnim (cfg : AnimConfig) (st : AnimState) : AnimState :=
  { st.stopped with
    currentDistanceNm := startingDistanceNm cfg.effectiveCeiling cfg.approachSpeed
    hasBrokenOut := false }

/-- `play()` at wall-clock time `now`: implicit reset + start when not
playing; resume (shifting the recorded start time) when playing-and-paused. -/
noncomputable def playAnim (cfg : AnimConfig) (now : ℝ) (st : AnimState) : AnimState :=
  if st.isPlaying = false then
    { resetAnim cfg st with
      isPlaying := true
      isPaused := false
      animationStartTime := some now }
  else if st.isPaused = true then
    match st.pausedTime, st.animationStartTime with
    | some p, some a =>
      { st with
        isPaused := false
        animationStartTime := some (a + (now - p))
        pausedTime := none }
    | _, _ => { st with isPaused := false, pausedTime := none }
  else st

/-- `pause()` at wall-clock time `now`. -/
def pauseAnim (now : ℝ) (st : AnimState) : AnimState :=
  if st.isPlaying = true ∧ st.isPaused = false then
    { st with isPaused := true, pausedTime := some now }
  else st

/-- The per-step distance decrement
`speedNmPerMs * deltaTime * speedMultiplier` of `updatePosition`. -/
noncomputable def distanceChange (cfg : AnimConfig) (deltaTime : ℝ) : ℝ :=
  knotsToMetersPerSecond cfg.approachSpeed / 1852 / 1000 * deltaTime *
    (if cfg.testMode then 10 else 1)

/-- The decremented, floored-at-zero distance written by `updatePosition`
before its landing check. -/
noncomputable def decrementedDistance (cfg : AnimConfig) (st : AnimState) (deltaTime : ℝ) : ℝ :=
  max 0 (st.currentDistanceNm - distanceChange cfg deltaTime)

/-- The landing floor recomputed in `updatePosition` and `setDistance`: the
distance at which glidepath altitude is 10 ft, i.e.
`10/(tan(3°)·FEET_PER_NM) + TOUCHDOWN_ZONE_DISTANCE_FT/FEET_PER_NM`. -/
noncomputable def minDistanceToThreshold : ℝ :=
  10 / (glideslopeTan * FEET_PER_NM) + TOUCHDOWN_ZONE_DISTANCE_FT / FEET_PER_NM

/-- `updatePosition(deltaTime)`: no-op unless playing and not paused;
decrement the distance, latch `hasBrokenOut` when the new altitude is at or
below the ceiling, then clamp at the landing floor and `stop()` if reached. -/
noncomputable def updatePosition (cfg : AnimConfig) (st : AnimState) (deltaTime : ℝ) :
    AnimState :=
  if st.isPlaying = false ∨ st.isPaused = true then st
  else
    let d1 := decrementedDistance cfg st deltaTime
    let broke : Bool :=
      if st.hasBrokenOut = false ∧ currentAltitude cfg d1 ≤ cfg.effectiveCeiling then true
      else st.hasBrokenOut
    if d1 ≤ minDistanceToThreshold then
      AnimState.stopped
        { st with currentDistanceNm := minDistanceToThreshold, hasBrokenOut := broke }
    else { st with currentDistanceNm := d1, hasBrokenOut := broke }

/-- `setDistance(distance)`: stop if actively playing, then clamp the
requested distance into `[minDistanceToThreshold, startingDistanceNm]`. -/
noncomputable def setDistance (cfg : AnimConfig) (st : AnimState) (distance : ℝ) : AnimState :=
  let st1 := if st.isPlaying = true ∧ st.isPaused = false then st.stopped else st
  { st1 with
    currentDistanceNm :=
      max minDistanceToThreshold
        (min (startingDistanceNm cfg.effectiveCeiling cfg.approachSpeed) distance) }

/-- The animation store commands reachable from the UI / render loop
(`reset` excluded: the latch claim quantifies over the non-reset commands). -/
inductive AnimOp where
  | play (now : ℝ)
  | pause (now : ℝ)
  | stop
  | updatePosition (deltaTime : ℝ)
  | setDistance (distance : ℝ)

/-- One command applied to the animation state. -/
noncomputable def stepAnim (cfg : AnimConfig) (op : AnimOp) (st : AnimState) : AnimState :=
  match op with
  | .play now => playAnim cfg now st
  | .pause now => pauseAnim now st
  | .stop => st.stopped
  | .updatePosition deltaTime => updatePosition cfg st deltaTime
  | .setDistance distance => setDistance cfg st distance

/-! ## PAPI glidepath evaluator (`PAPISystem.update`) -/

/-- Material of one PAPI slot. -/
inductive PAPIColor where
  | red
  | white
deriving DecidableEq, Repr

/-- The fixed threshold chain of `PAPISystem.update` mapping the computed
glidepath angle (degrees) to the number of leftmost red slots. -/
noncomputable def papiRedCountOfAngle (angleDegrees : ℝ) : ℕ :=
  if angleDegrees ≥ 3.5 then 0
  else if angleDegrees ≥ 3.25 then 1
  else if angleDegrees ≥ 2.75 then 2
  else if angleDegrees ≥ 2.5 then 3
  else 4

/-- `PAPISystem.update(currentAltitude, currentDistanceNm)` acting on the
four slot materials (the `papiLights.length !== 4` guard is kept; the
material null-checks are modelled away since materials are colors here). -/
noncomputable def papiUpdate (papiLights : List PAPIColor)
    (currentAltitude currentDistanceNm : ℝ) : List PAPIColor :=
  if papiLights.length ≠ 4 then papiLights
  else
    let distanceToTDZ := max 0 (currentDistanceNm - TOUCHDOWN_ZONE_DISTANCE_FT / FEET_PER_NM)
    let distanceFt := distanceToTDZ * FEET_PER_NM
    if distanceFt ≤ 0 then papiLights
    else
      let angleRadians := Real.arctan (currentAltitude / distanceFt)
      let angleDegrees := angleRadians * 180 / Real.pi
      let redCount := papiRedCountOfAngle angleDegrees
      (List.range 4).map fun i => if i < redCount then PAPIColor.red else PAPIColor.white

/-! ## Theorems about the configuration store, fog model and ALSF-I layout -/

/-- The `"cat-ii"` catalog entry, for concrete instantiations. -/
def catIIMinimum : ApproachMinimum :=
  { id := "cat-ii", label := "ILS CAT II", ceiling := 100, visibility := 1200,
    visibilityUnit := .RVR }

/-- The `"cat-iiia"` catalog entry, for concrete instantiations. -/
def catIIIaMinimum : ApproachMinimum :=
  { id := "cat-iiia", label := "ILS CAT IIIa", ceiling := 50, visibility := 600,
    visibilityUnit := .RVR }

/-- Numeral-reduction helper for the threshold-bar light count. -/
theorem toNat48 : Int.toNat 48 = 48 := rfl

/-- `BEq` reduction on `LightColor`, for filter evaluation. -/
theorem white_beq_green : (LightColor.white == LightColor.green) = false := rfl

/-- `BEq` reduction on `LightColor`, for filter evaluation. -/
theorem red_beq_green : (LightColor.red == LightColor.green) = false := rfl

/-- `BEq` reduction on `LightColor`, for filter evaluation. -/
theorem strobe_beq_green : (LightColor.strobe == LightColor.green) = false := rfl

/-- `BEq` reduction on `LightColor`, for filter evaluation. -/
theorem green_beq_green : (LightColor.green == LightColor.green) = true := rfl

/-- Constructor disequality of the visibility units, for ite reduction. -/
theorem sm_ne_rvr : (VisUnit.SM = VisUnit.RVR) = False :=
  eq_false fun h => VisUnit.noConfusion h

/-- **C4.** With no override set, `effectiveCeiling` / `effectiveVisibility` /
`visibilityUnit` equal the selected minimum's stored values; once a custom
override is set they equal the override regardless of the selected minimum;
and for an id not in the catalog (no overrides set) they resolve to the
fallbacks: ceiling 200, visibility 2400, unit RVR. -/
theorem effective_minima_fallback :
    (∀ (s : ApproachState) (m : ApproachMinimum), selectedMinimum s = some m →
      s.customCeiling = none → s.customVisibility = none → s.customVisibilityUnit = none →
      effectiveCeiling s = m.ceiling ∧ effectiveVisibility s = m.visibility ∧
        visibilityUnit s = m.visibilityUnit) ∧
    (∀ (s : ApproachState) (c : ℚ), s.customCeiling = some c → effectiveCeiling s = c) ∧
    (∀ (s : ApproachState) (v : ℚ), s.customVisibility = some v → effectiveVisibility s = v) ∧
    (∀ (s : ApproachState) (u : VisUnit), s.customVisibilityUnit = some u →
      visibilityUnit s = u) ∧
    (∀ s : ApproachState, selectedMinimum s = none →
      s.customCeiling = none → s.customVisibility = none → s.customVisibilityUnit = none →
      effectiveCeiling s = 200 ∧ effectiveVisibility s = 2400 ∧
        visibilityUnit s = VisUnit.RVR) := by
  refine ⟨?_, ?_, ?_, ?_, ?_⟩
  · intro s m hm hc hv hu
    refine ⟨?_, ?_, ?_⟩ <;>
      simp [effectiveCeiling, effectiveVisibility, visibilityUnit, hm, hc, hv, hu]
  · intro s c hc
    simp [effectiveCeiling, hc]
  · intro s v hv
    simp [effectiveVisibility, hv]
  · intro s u hu
    simp [visibilityUnit, hu]
  · intro s hm hc hv hu
    refine ⟨?_, ?_, ?_⟩ <;>
      simp [effectiveCeiling, effectiveVisibility, visibilityUnit, hm, hc, hv, hu]

/-- Witness for C4: concrete instantiations of each part of
`effective_minima_fallback`. -/
theorem effective_minima_fallback_witness :
    (effectiveCeiling { defaultApproach with selectedMinimumId := "cat-ii" } = 100 ∧
      effectiveVisibility { defaultApproach with selectedMinimumId := "cat-ii" } = 1200 ∧
      visibilityUnit { defaultApproach with selectedMinimumId := "cat-ii" } = .RVR) ∧
    effectiveCeiling { defaultApproach with customCeiling := some 350 } = 350 ∧
    effectiveVisibility { defaultApproach with customVisibility := some 5000 } = 5000 ∧
    visibilityUnit { defaultApproach with customVisibilityUnit := some .SM } = .SM ∧
    (effectiveCeiling { defaultApproach with selectedMinimumId := "bogus" } = 200 ∧
      effectiveVisibility { defaultApproach with selectedMinimumId := "bogus" } = 2400 ∧
      visibilityUnit { defaultApproach with selectedMinimumId := "bogus" } = .RVR) :=
  ⟨effective_minima_fallback.1 _ catIIMinimum rfl rfl rfl rfl,
    effective_minima_fallback.2.1 _ 350 rfl,
    effective_minima_fallback.2.2.1 _ 5000 rfl,
    effective_minima_fallback.2.2.2.1 _ .SM rfl,
    effective_minima_fallback.2.2.2.2 _ rfl rfl rfl rfl⟩

set_option maxHeartbeats 4000000 in
set_option maxRecDepth 8000 in
/-- **C6.** The ALSF-I layout has, at the 1000-ft station, exactly the
21 steady fixtures of the special crossbar — the 5-light center barrette
followed by two 8-light side barrettes — plus a 49-light green threshold bar
at `z = 0`, plus exactly 21 sequenced-flasher positions at the stations
1000, 1100, …, 3000 ft from the threshold. -/
theorem alsfi_layout_spec :
    ((alsfiLights.filter fun f => (f.z == -feetToMeters 1000) && !f.isFlasher).length = 21 ∧
      (alsfiLights.filter fun f => (f.z == -feetToMeters 1000) && !f.isFlasher).map (·.x) =
        (List.range 5).map (fun j => ((j : ℚ) - 2) * alsfiBarrSpacing) ++
          (List.range 8).map (fun i => -1 * (feetToMeters 22.5 + (i : ℚ) * feetToMeters 5)) ++
          (List.range 8).map (fun i => 1 * (feetToMeters 22.5 + (i : ℚ) * feetToMeters 5))) ∧
    ((alsfiLights.filter fun f => f.color == .green).length = 49 ∧
      (alsfiLights.filter fun f => f.color == .green).all (fun f => f.z == 0) = true) ∧
    (alsfiLights.filter (·.isFlasher)).map (·.z) =
      (List.range 21).map (fun k => -feetToMeters (1000 + 100 * (k : ℚ))) := by
  norm_num [alsfiLights, alsfiCenterlineBarrettes, alsfiStandardBarrette, alsfiCrossbar1000,
    alsfiPreThresholdBar, alsfiTerminatingBar, createThresholdBar, alsfiSequencedFlashers,
    alsfiBarrSpacing, feetToMeters, RUNWAY_WIDTH_FT, List.range_succ, Int.toNat_ofNat, toNat48,
    white_beq_green, red_beq_green, strobe_beq_green, green_beq_green]

/-- **C7.** Fog policy: for RVR, fog start is `0.1 ×` and fog end `0.8 ×` the
visibility converted feet→meters (in particular at 600 RVR); for statute
miles, fog start is `0.3 ×` and fog end `1.0 ×` the visibility converted via
1609.344 m/SM. -/
theorem fog_distance_policy :
    (∀ v : ℚ,
      (updateFogDistance .RVR v).fogStart = 0.1 * (v * 0.3048) ∧
      (updateFogDistance .RVR v).fogEnd = 0.8 * (v * 0.3048)) ∧
    ((updateFogDistance .RVR 600).fogStart = 0.1 * (600 * 0.3048) ∧
      (updateFogDistance .RVR 600).fogEnd = 0.8 * (600 * 0.3048)) ∧
    (∀ v : ℚ,
      (updateFogDistance .SM v).fogStart = 0.3 * (v * 1609.344) ∧
      (updateFogDistance .SM v).fogEnd = 1.0 * (v * 1609.344)) := by
  refine ⟨fun v => ⟨?_, ?_⟩, ⟨?_, ?_⟩, fun v => ⟨?_, ?_⟩⟩ <;>
    norm_num [updateFogDistance, statuteMilesToMeters, sm_ne_rvr] <;> ring

/-- **C9.** `setLightingType` overwrites all eight feature toggles with a
fixed per-type preset (independent of the prior toggle values): ALSF-II and
ALSF-I force `showREIL = false`, ODALS forces `showPAPI = false`, and `None`
forces every toggle except `showThresholdMarkings` to `false`. -/
theorem setLightingType_preset_overwrite :
    (∀ (s s' : ApproachState) (t : LightingType),
      togglesOf (setLightingType s t) = togglesOf (setLightingType s' t)) ∧
    (∀ s : ApproachState,
      togglesOf (setLightingType s .ALSF_II) =
        [false, true, true, true, true, true, true, true] ∧
      togglesOf (setLightingType s .ALSF_I) =
        [false, true, true, true, true, true, true, true] ∧
      togglesOf (setLightingType s .MALSR) =
        [true, false, true, true, true, true, true, true] ∧
      togglesOf (setLightingType s .SSALR) =
        [true, false, true, true, true, false, false, false] ∧
      togglesOf (setLightingType s .MALS) =
        [true, false, true, true, true, false, false, false] ∧
      togglesOf (setLightingType s .MALSF) =
        [true, false, true, true, true, false, false, false] ∧
      togglesOf (setLightingType s .ODALS) =
        [false, false, true, false, true, false, false, false] ∧
      togglesOf (setLightingType s .None) =
        [false, false, false, false, true, false, false, false]) := by
  constructor
  · intro s s' t
    cases t <;> rfl
  · intro s
    exact ⟨rfl, rfl, rfl, rfl, rfl, rfl, rfl, rfl⟩

/-- **C10.** `selectMinimum(id)` sets the selected id, resets the three
override fields to `null` (so the effective values revert to the newly
selected minimum's catalog values), and leaves lighting type, approach speed
and all eight toggles unchanged. -/
theorem selectMinimum_resets_overrides :
    ∀ (s : ApproachState) (minimumId : String),
      (selectMinimum s minimumId).selectedMinimumId = minimumId ∧
      (selectMinimum s minimumId).customCeiling = none ∧
      (selectMinimum s minimumId).customVisibility = none ∧
      (selectMinimum s minimumId).customVisibilityUnit = none ∧
      (selectMinimum s minimumId).lightingType = s.lightingType ∧
      (selectMinimum s minimumId).approachSpeed = s.approachSpeed ∧
      togglesOf (selectMinimum s minimumId) = togglesOf s ∧
      ∀ m : ApproachMinimum,
        APPROACH_MINIMA.find? (fun mm => mm.id == minimumId) = some m →
        effectiveCeiling (selectMinimum s minimumId) = m.ceiling ∧
        effectiveVisibility (selectMinimum s minimumId) = m.visibility ∧
        visibilityUnit (selectMinimum s minimumId) = m.visibilityUnit := by
  intro s minimumId
  refine ⟨rfl, rfl, rfl, rfl, rfl, rfl, rfl, ?_⟩
  intro m hm
  have hsel : selectedMinimum (selectMinimum s minimumId) = some m := hm
  have hc : (selectMinimum s minimumId).customCeiling = none := rfl
  have hv : (selectMinimum s minimumId).customVisibility = none := rfl
  have hu : (selectMinimum s minimumId).customVisibilityUnit = none := rfl
  exact ⟨by simp [effectiveCeiling, hsel, hc], by simp [effectiveVisibility, hsel, hv],
    by simp [visibilityUnit, hsel, hu]⟩

/-- Witness for C10: selecting `"cat-iiia"` from the default state. -/
theorem selectMinimum_resets_overrides_witness :
    (selectMinimum defaultApproach "cat-iiia").selectedMinimumId = "cat-iiia" ∧
    (selectMinimum defaultApproach "cat-iiia").customCeiling = none ∧
    (selectMinimum defaultApproach "cat-iiia").customVisibility = none ∧
    (selectMinimum defaultApproach "cat-iiia").customVisibilityUnit = none ∧
    (selectMinimum defaultApproach "cat-iiia").lightingType = defaultApproach.lightingType ∧
    (selectMinimum defaultApproach "cat-iiia").approachSpeed = defaultApproach.approachSpeed ∧
    togglesOf (selectMinimum defaultApproach "cat-iiia") = togglesOf defaultApproach ∧
    (effectiveCeiling (selectMinimum defaultApproach "cat-iiia") = 50 ∧
      effectiveVisibility (selectMinimum defaultApproach "cat-iiia") = 600 ∧
      visibilityUnit (selectMinimum defaultApproach "cat-iiia") = .RVR) := by
  obtain ⟨h1, h2, h3, h4, h5, h6, h7, h8⟩ :=
    selectMinimum_resets_overrides defaultApproach "cat-iiia"
  exact ⟨h1, h2, h3, h4, h5, h6, h7, h8 catIIIaMinimum rfl⟩

/-- **C1** (counterexample). At a glidepath angle of exactly 2.5° the
evaluator's threshold chain yields 3 reds, not the 4 the claim states
(the `>= 2.5` comparison puts the boundary itself in the 3-red bin). -/
theorem papi_boundary_25_not_four : ¬ papiRedCountOfAngle 2.5 = 4 := by
  norm_num [papiRedCountOfAngle]

/-- **C1** (amended). At the exact boundary angles the evaluator yields:
2.5° → 3 reds, 2.75° → 2 reds, 3.0° → 2 reds, 3.25° → 1 red,
3.5° → 0 reds (each `>=` threshold claims its own boundary). -/
theorem papi_boundary_red_counts :
    papiRedCountOfAngle 2.5 = 3 ∧ papiRedCountOfAngle 2.75 = 2 ∧
    papiRedCountOfAngle 3 = 2 ∧ papiRedCountOfAngle 3.25 = 1 ∧
    papiRedCountOfAngle 3.5 = 0 := by
  norm_num [papiRedCountOfAngle]

/-- **C8.** Whenever the distance to the touchdown zone is ≤ 0 (the aircraft
is at or inside the 1000-ft touchdown-zone offset), `PAPISystem.update`
short-circuits and returns the previous slot materials unchanged. -/
theorem papi_short_circuit (papiLights : List PAPIColor) (alt dist : ℝ)
    (h : dist ≤ TOUCHDOWN_ZONE_DISTANCE_FT / FEET_PER_NM) :
    papiUpdate papiLights alt dist = papiLights := by
  simp only [papiUpdate]
  split_ifs with h1 h2
  · rfl
  · rfl
  · exfalso
    apply h2
    have hx : dist - TOUCHDOWN_ZONE_DISTANCE_FT / FEET_PER_NM ≤ 0 := by linarith
    rw [max_eq_left hx]
    simp

/-- Witness for C8: at distance 0 nm the slot list is returned unchanged. -/
theorem papi_short_circuit_witness :
    papiUpdate [PAPIColor.white, PAPIColor.white, PAPIColor.red, PAPIColor.red] 100 0 =
      [PAPIColor.white, PAPIColor.white, PAPIColor.red, PAPIColor.red] :=
  papi_short_circuit _ 100 0 (by norm_num [TOUCHDOWN_ZONE_DISTANCE_FT, FEET_PER_NM])

/-! ## Bounds on the 3° glideslope tangent -/

/-- The 3° glideslope tangent is positive. -/
theorem glideslopeTan_pos : 0 < glideslopeTan := by
  have hpi := Real.pi_pos
  unfold glideslopeTan GLIDESLOPE_ANGLE
  apply Real.tan_pos_of_pos_of_lt_pi_div_two
  · positivity
  · linarith

/-- The 3° glideslope tangent is below 0.105: `tan x ≤ x / cos x ≤ 2x` for
`x = π/60 ≤ π/3`, and `π/30 < 3.15/30 = 0.105`. -/
theorem glideslopeTan_lt : glideslopeTan < 0.105 := by
  have hpi := Real.pi_pos
  have hlt := Real.pi_lt_d2
  have hx0 : (0 : ℝ) < 3 * Real.pi / 180 := by linarith
  have hxle : 3 * Real.pi / 180 ≤ Real.pi / 3 := by linarith
  have hcos : (1 : ℝ) / 2 ≤ Real.cos (3 * Real.pi / 180) := by
    have h := Real.cos_le_cos_of_nonneg_of_le_pi hx0.le (by linarith) hxle
    rwa [Real.cos_pi_div_three] at h
  have hsin : Real.sin (3 * Real.pi / 180) ≤ 3 * Real.pi / 180 := Real.sin_le hx0.le
  have htan : glideslopeTan =
      Real.sin (3 * Real.pi / 180) / Real.cos (3 * Real.pi / 180) := by
    unfold glideslopeTan GLIDESLOPE_ANGLE
    exact Real.tan_eq_sin_div_cos _
  have hb : glideslopeTan ≤ 3 * Real.pi / 180 / (1 / 2) := by
    rw [htan]
    exact div_le_div₀ hx0.le hsin (by norm_num) hcos
  have hb2 : 3 * Real.pi / 180 / (1 / 2) = Real.pi / 30 := by ring
  rw [hb2] at hb
  linarith

/-- `glideslopeTan * FEET_PER_NM` is positive. -/
theorem glideslopeTanF_pos : 0 < glideslopeTan * FEET_PER_NM :=
  mul_pos glideslopeTan_pos (by norm_num [FEET_PER_NM])

/-- `glideslopeTan * FEET_PER_NM` is below 638. -/
theorem glideslopeTanF_lt : glideslopeTan * FEET_PER_NM < 638 := by
  have h := glideslopeTan_lt
  have h0 := glideslopeTan_pos
  unfold FEET_PER_NM
  nlinarith

/-! ## C2: monotonicity of `startingDistanceNm` -/

/-- For a speed `s ≤ 60` kt the 3-second branch is dominated by the
50-ft-margin floor: `calculatedStart ≤ minDistance`. -/
theorem startingDistance_floor_dominates (ceiling s : ℝ) (hs : s ≤ 60) :
    startingDistanceNm ceiling s =
      (ceiling + 50) / (glideslopeTan * FEET_PER_NM) +
        TOUCHDOWN_ZONE_DISTANCE_FT / FEET_PER_NM := by
  simp only [startingDistanceNm]
  apply max_eq_right
  have hexp : (ceiling + 50) / (glideslopeTan * FEET_PER_NM) =
      ceiling / (glideslopeTan * FEET_PER_NM) + 50 / (glideslopeTan * FEET_PER_NM) := by
    ring
  rw [hexp]
  have hs3 : s / 3600 * 3 ≤ 1 / 20 := by linarith
  have h50 : (1 : ℝ) / 20 ≤ 50 / (glideslopeTan * FEET_PER_NM) := by
    rw [le_div_iff₀ glideslopeTanF_pos]
    nlinarith [glideslopeTanF_lt, glideslopeTanF_pos]
  linarith

/-- **C2** (counterexample). With ceiling 200 ft, raising the approach speed
from 50 kt to 60 kt (both inside `[50, 200]`) does **not** strictly increase
`startingDistanceNm`: the 50-ft-margin floor dominates at both speeds, so
the two values are equal. -/
theorem startingDistance_not_strict_in_speed :
    ((0 : ℝ) ≤ 200 ∧ (50 : ℝ) < 60 ∧ (50 : ℝ) ≤ 50 ∧ (60 : ℝ) ≤ 200) ∧
    ¬ startingDistanceNm 200 50 < startingDistanceNm 200 60 := by
  refine ⟨by norm_num, ?_⟩
  rw [startingDistance_floor_dominates 200 50 (by norm_num),
    startingDistance_floor_dominates 200 60 (by norm_num)]
  exact lt_irrefl _

/-- **C2** (amended). Over speeds in `[50, 200]` and ceilings ≥ 0,
`startingDistanceNm` is monotonically **non-decreasing** in approach speed
(not strictly increasing: the ≥50-ft-margin floor can dominate), and
strictly increasing in ceiling. -/
theorem startingDistance_monotone :
    (∀ ceiling s1 s2 : ℝ, 0 ≤ ceiling → 50 ≤ s1 → s1 ≤ s2 → s2 ≤ 200 →
      startingDistanceNm ceiling s1 ≤ startingDistanceNm ceiling s2) ∧
    (∀ c1 c2 speed : ℝ, 0 ≤ c1 → c1 < c2 → 50 ≤ speed → speed ≤ 200 →
      startingDistanceNm c1 speed < startingDistanceNm c2 speed) := by
  constructor
  · intro ceiling s1 s2 _ _ h12 _
    simp only [startingDistanceNm]
    apply max_le_max _ le_rfl
    linarith
  · intro c1 c2 speed _ h12 _ _
    have hdiv : c1 / (glideslopeTan * FEET_PER_NM) < c2 / (glideslopeTan * FEET_PER_NM) := by
      have hpos : 0 < (c2 - c1) / (glideslopeTan * FEET_PER_NM) :=
        div_pos (by linarith) glideslopeTanF_pos
      have hsub : c2 / (glideslopeTan * FEET_PER_NM) - c1 / (glideslopeTan * FEET_PER_NM) =
          (c2 - c1) / (glideslopeTan * FEET_PER_NM) := by ring
      linarith [hsub ▸ hpos]
    have hdiv50 : (c1 + 50) / (glideslopeTan * FEET_PER_NM) <
        (c2 + 50) / (glideslopeTan * FEET_PER_NM) := by
      have hpos : 0 < (c2 + 50 - (c1 + 50)) / (glideslopeTan * FEET_PER_NM) :=
        div_pos (by linarith) glideslopeTanF_pos
      have hsub : (c2 + 50) / (glideslopeTan * FEET_PER_NM) -
          (c1 + 50) / (glideslopeTan * FEET_PER_NM) =
          (c2 + 50 - (c1 + 50)) / (glideslopeTan * FEET_PER_NM) := by ring
      linarith [hsub ▸ hpos]
    simp only [startingDistanceNm]
    apply max_lt_max
    · linarith
    · linarith

/-- Witness for C2 (amended): concrete instantiations of both parts. -/
theorem startingDistance_monotone_witness :
    startingDistanceNm 200 50 ≤ startingDistanceNm 200 60 ∧
    startingDistanceNm 100 120 < startingDistanceNm 200 120 :=
  ⟨startingDistance_monotone.1 200 50 60 (by norm_num) (by norm_num) (by norm_num)
      (by norm_num),
    startingDistance_monotone.2 100 200 120 (by norm_num) (by norm_num) (by norm_num)
      (by norm_num)⟩

/-! ## C3 and C5: `updatePosition` landing floor and the breakout latch -/

/-- **C3.** In a playing, unpaused state, `updatePosition` never drives
`currentDistanceNm` below the 10-ft-altitude landing floor
`10/(tan(3°)·6076.12) + 1000/6076.12` nm; `stop()` is called (`isPlaying`
becomes `false`) exactly when the decremented distance reaches or crosses
that floor, and the distance is then clamped to the floor. -/
theorem updatePosition_landing_floor (cfg : AnimConfig) (st : AnimState) (deltaTime : ℝ)
    (hp : st.isPlaying = true) (hq : st.isPaused = false) ( _hd : 0 ≤ deltaTime) :
    minDistanceToThreshold ≤ (updatePosition cfg st deltaTime).currentDistanceNm ∧
    ((updatePosition cfg st deltaTime).isPlaying = false ↔
      decrementedDistance cfg st deltaTime ≤ minDistanceToThreshold) ∧
    (decrementedDistance cfg st deltaTime ≤ minDistanceToThreshold →
      (updatePosition cfg st deltaTime).currentDistanceNm = minDistanceToThreshold) := by
  simp only [updatePosition, hp, hq]
  norm_num
  split_ifs with hland
  · simp [AnimState.stopped, hland]
  · simp only [AnimState.stopped]
    refine ⟨le_of_lt (lt_of_not_le hland), ?_, fun h => absurd h hland⟩
    simp [hp, hland]

/-- Witness for C3: a concrete playing state far from the floor. -/
theorem updatePosition_landing_floor_witness :
    minDistanceToThreshold ≤
      (updatePosition ⟨120, 200, "cat-i", false⟩
        ⟨true, false, 5, false, some 0, none⟩ 16).currentDistanceNm ∧
    ((updatePosition ⟨120, 200, "cat-i", false⟩
        ⟨true, false, 5, false, some 0, none⟩ 16).isPlaying = false ↔
      decrementedDistance ⟨120, 200, "cat-i", false⟩
        ⟨true, false, 5, false, some 0, none⟩ 16 ≤ minDistanceToThreshold) ∧
    (decrementedDistance ⟨120, 200, "cat-i", false⟩
        ⟨true, false, 5, false, some 0, none⟩ 16 ≤ minDistanceToThreshold →
      (updatePosition ⟨120, 200, "cat-i", false⟩
        ⟨true, false, 5, false, some 0, none⟩ 16).currentDistanceNm =
        minDistanceToThreshold) :=
  updatePosition_landing_floor _ _ _ rfl rfl (by norm_num)

/-- **C5.** `hasBrokenOut` is a one-way latch: under every store command
other than `reset()` — `play` restricted to states that are already playing,
since `play()` on a stopped store performs an implicit reset — a state with
`hasBrokenOut = true` steps to a state with `hasBrokenOut = true`; in
particular no `updatePosition` call clears it, even if the computed altitude
exceeds the effective ceiling again. -/
theorem hasBrokenOut_latch (cfg : AnimConfig) (op : AnimOp) (st : AnimState)
    (hb : st.hasBrokenOut = true)
    (hplay : ∀ now : ℝ, op = AnimOp.play now → st.isPlaying = true) :
    (stepAnim cfg op st).hasBrokenOut = true := by
  cases op with
  | play now =>
    have hp : st.isPlaying = true := hplay now rfl
    simp only [stepAnim, playAnim, hp]
    norm_num
    split_ifs with h2
    · rcases st.pausedTime with _ | p <;> rcases st.animationStartTime with _ | a <;>
        simp [hb]
    · exact hb
  | pause now =>
    simp only [stepAnim, pauseAnim]
    split_ifs <;> simp [hb]
  | stop =>
    simpa [stepAnim, AnimState.stopped] using hb
  | updatePosition deltaTime =>
    simp only [stepAnim, updatePosition, hb]
    norm_num
    split_ifs <;> simp [AnimState.stopped, hb]
  | setDistance distance =>
    simp only [stepAnim, setDistance]
    split_ifs <;> simp [AnimState.stopped, hb]

/-- Witness for C5: `stop` preserves the latch in a concrete latched state. -/
theorem hasBrokenOut_latch_witness :
    (stepAnim ⟨120, 200, "cat-i", false⟩ AnimOp.stop
      ⟨true, false, 5, true, some 0, none⟩).hasBrokenOut = true :=
  hasBrokenOut_latch _ _ _ rfl (fun _ h => nomatch h)
